import Mathlib

/-!
# RotorHazardLidar — verification of the data-refresh-and-render pipeline

Shallow embedding of the LIDAR visualization components of the repository:

* `src/static/lidar-viz.js` — the served, fetch-based React component
  (identical component body to `src/unnamed/part_003`): polls `/lidar/data`,
  keeps the raw threshold, classifies points with
  `(point.angle < 10 || point.angle > 350) && point.distance * 10 < threshold`,
  and renders onto an 800×800 canvas (center 400, scale 2).
* `src/unnamed/part_000` / `part_001` / `part_004` — revision variants of the
  fetch component that divide the fetched threshold by 10 (mm → cm) and clear
  the error on success.
* `src/lidar-viz.js` — the websocket-fed variant rendering onto a 600×600
  canvas (center 300, scale 2) with `centerY + point.y * scale`.

Numbers are modelled as rationals (the JS arithmetic involved — comparisons,
`* 10`, `/ 10`, `* 2`, additions — is exact on the values in range, so ℚ is a
faithful model). Fetch outcomes, display state and draw commands are explicit
data; the periodic schedule and the React mount lifecycle are modelled as a
step function on an explicit shell state.
-/

/-- One scan point as consumed by the components: `angle` (degrees),
`distance` (sensor unit), and the precomputed Cartesian offsets `x`, `y`. -/
structure ScanPoint where
  angle : ℚ
  distance : ℚ
  x : ℚ
  y : ℚ
deriving DecidableEq, Repr

/-- `src/static/lidar-viz.js` line 67 (= `src/unnamed/part_003` line 66):
`const isInGateArea = (point.angle < 10 || point.angle > 350) && point.distance * 10 < threshold;`
where `threshold` is the raw value held by the static component. -/
def isInGateArea (p : ScanPoint) (threshold : ℚ) : Bool :=
  (decide (p.angle < 10) || decide (p.angle > 350)) && decide (p.distance * 10 < threshold)

/-- Modelled from the spec (§4.1 `isInGateZone`): true iff the point's
distance is strictly below the gate threshold, both in the same canonical
unit, and the bearing lies strictly inside the ±10° cone around 0°/360°.
Used as the spec-side definition for the refinement claims. -/
def isInGateZone (p : ScanPoint) (gateThreshold : ℚ) : Bool :=
  decide (p.distance < gateThreshold) && (decide (p.angle < 10) || decide (p.angle > 350))

/-- The scaled raw test of the code and the canonical-unit test of the spec
agree: `d * 10 < t ↔ d < t / 10` over the rationals. -/
theorem mul_ten_lt_iff (d t : ℚ) : d * 10 < t ↔ d < t / 10 := by
  rw [lt_div_iff₀ (by norm_num : (0:ℚ) < 10)]

/-- **C1.** The gate-zone classification of the code, fed the raw threshold
`10 * g` corresponding to a canonical gate threshold `g`, returns true
exactly when the point's distance is strictly below `g` and its bearing
satisfies `angle < 10 ∨ angle > 350`; it agrees with the spec's
`isInGateZone`, and on the boundary examples (canonical threshold 100, raw
1000): angle 5 / distance 99 is in-zone, angle 5 / distance 100 is not
(strict), angle 11 / distance 50 is not (cone boundary excluded). -/
theorem c1_gate_classification :
    (∀ (p : ScanPoint) (g : ℚ), isInGateArea p (10 * g) = isInGateZone p g)
    ∧ (∀ (p : ScanPoint) (g : ℚ),
        isInGateZone p g = true ↔ (p.distance < g ∧ (p.angle < 10 ∨ p.angle > 350)))
    ∧ isInGateArea ⟨5, 99, 0, 0⟩ 1000 = true
    ∧ isInGateArea ⟨5, 100, 0, 0⟩ 1000 = false
    ∧ isInGateArea ⟨11, 50, 0, 0⟩ 1000 = false
    ∧ isInGateZone ⟨5, 99, 0, 0⟩ 100 = true
    ∧ isInGateZone ⟨5, 100, 0, 0⟩ 100 = false
    ∧ isInGateZone ⟨11, 50, 0, 0⟩ 100 = false := by
  refine ⟨?_, ?_, by norm_num [isInGateArea], by norm_num [isInGateArea],
    by norm_num [isInGateArea], by norm_num [isInGateZone], by norm_num [isInGateZone],
    by norm_num [isInGateZone]⟩
  · intro p g
    have h : (p.distance * 10 < 10 * g) ↔ (p.distance < g) := by
      rw [mul_comm 10 g]
      exact mul_lt_mul_right (by norm_num)
    simp only [isInGateArea, isInGateZone, Bool.and_comm]
    rw [decide_eq_decide.mpr h]
  · intro p g
    simp [isInGateZone]

/-- The state triple held by the fetch-based display components:
`scanData` / `threshold` / `error` (`useState` hooks of the component). -/
structure DisplayState where
  scanData : List ScanPoint
  threshold : ℚ
  error : Option String
deriving DecidableEq, Repr

/-- Outcome of one completed `/lidar/data` request: either a parsed JSON
payload — with an optional `error` field, the `scan` list (empty when the
field is absent) and the raw `threshold` — or a transport-level failure
(`fetch`/`json` threw), carrying the exception message. -/
inductive FetchResult where
  | payload (err : Option String) (scan : List ScanPoint) (threshold : ℚ)
  | transportFail (msg : String)
deriving DecidableEq, Repr

/-- Result of running one `fetchData` cycle: the new display state, plus
which of the two deliveries the cycle performed — a snapshot update
(`setScanData`/`setThreshold`) and/or an error report (`setError` with a
message). -/
structure CycleResult where
  state : DisplayState
  snapshotDelivered : Bool
  errorDelivered : Bool
deriving DecidableEq, Repr

/-- `fetchData` of `src/static/lidar-viz.js` lines 11–25: on a payload with
an `error` field only `setError(data.error)` runs; otherwise
`setScanData(data.scan)` and `setThreshold(data.threshold)` run (raw
threshold, no division, and no `setError(null)`); a thrown error yields
`setError('Failed to fetch LIDAR data: ' + err.message)`. -/
def staticCycle (s : DisplayState) (r : FetchResult) : CycleResult :=
  match r with
  | .payload (some e) _ _ => ⟨{ s with error := some e }, false, true⟩
  | .payload none scan t => ⟨{ s with scanData := scan, threshold := t }, true, false⟩
  | .transportFail m =>
      ⟨{ s with error := some ("Failed to fetch LIDAR data: " ++ m) }, false, true⟩

/-- `fetchData` of `src/unnamed/part_000` lines 10–25: on an `error` payload
only `setError(data.error)`; otherwise `setError(null)`,
`setScanData(data.scan || [])` and `setThreshold(data.threshold / 10)`
(mm → cm); a thrown error yields `setError('Failed to fetch LIDAR data')`. -/
def part000Cycle (s : DisplayState) (r : FetchResult) : CycleResult :=
  match r with
  | .payload (some e) _ _ => ⟨{ s with error := some e }, false, true⟩
  | .payload none scan t => ⟨⟨scan, t / 10, none⟩, true, false⟩
  | .transportFail _ => ⟨{ s with error := some "Failed to fetch LIDAR data" }, false, true⟩

/-- `fetchData` of `src/unnamed/part_001` lines 11–28: `setError(data.error)`
when the `error` field is present, else `setError(null)`; then — in both
cases — `setScanData(data.scan || [])` and `setThreshold(data.threshold / 10)`
run; a thrown error yields only `setError('Failed to fetch LIDAR data')`. -/
def part001Cycle (s : DisplayState) (r : FetchResult) : CycleResult :=
  match r with
  | .payload err scan t => ⟨⟨scan, t / 10, err⟩, true, err.isSome⟩
  | .transportFail _ => ⟨{ s with error := some "Failed to fetch LIDAR data" }, false, true⟩

/-- Initial hook state of the static component: `useState([])`,
`useState(1000)`, `useState(null)`. -/
def staticInit : DisplayState := ⟨[], 1000, none⟩

/-- Initial hook state of the part_000/part_001 components: `useState([])`,
`useState(100)`, `useState(null)`. -/
def part000Init : DisplayState := ⟨[], 100, none⟩

/-- A concrete successful scan of five points, used by the frame-effect
scenarios. -/
def fivePoints : List ScanPoint :=
  [⟨0, 50, 50, 0⟩, ⟨1, 50, 50, 1⟩, ⟨2, 50, 50, 2⟩, ⟨3, 50, 50, 3⟩, ⟨4, 50, 50, 4⟩]

/-- **C2 (counterexample).** The static fetcher does not divide the raw
threshold by 10: processing a successful payload with raw threshold 1000
leaves the held threshold at 1000, not at the canonical 100. -/
theorem c2_static_keeps_raw_threshold :
    (staticCycle staticInit (.payload none [] 1000)).state.threshold = 1000
    ∧ ((1000 : ℚ) ≠ 100) := by
  refine ⟨by simp [staticCycle, staticInit], by norm_num⟩

/-- **C2 (amended).** The part_000-family fetcher stores `threshold / 10`
on every successful payload (raw 1000 becomes canonical 100), while the
static fetcher hands the raw threshold through unchanged and its
classification multiplies the distance by 10 instead; for every point and
raw threshold, classifying against the normalized threshold (spec's
`isInGateZone` at `t / 10`) gives the same boolean as the code's
classification on the raw values (`isInGateArea` at `t`). -/
theorem c2_threshold_normalization :
    (∀ (s : DisplayState) (scan : List ScanPoint) (t : ℚ),
        (part000Cycle s (.payload none scan t)).state.threshold = t / 10)
    ∧ (part000Cycle part000Init (.payload none [] 1000)).state.threshold = 100
    ∧ (∀ (s : DisplayState) (scan : List ScanPoint) (t : ℚ),
        (staticCycle s (.payload none scan t)).state.threshold = t)
    ∧ (∀ (p : ScanPoint) (t : ℚ), isInGateZone p (t / 10) = isInGateArea p t) := by
  refine ⟨fun s scan t => by simp [part000Cycle], by norm_num [part000Cycle, part000Init],
    fun s scan t => by simp [staticCycle], fun p t => ?_⟩
  simp only [isInGateZone, isInGateArea, Bool.and_comm]
  rw [decide_eq_decide.mpr (mul_ten_lt_iff p.distance t)]

/-- **C4 (counterexample).** In the part_001 variant, an application-level
error payload does clear the held scan set: starting from five held points,
a payload carrying an `error` field and no `scan` field leaves the held scan
set empty, not equal to the five points. -/
theorem c4_part001_clears_scan_on_error :
    (part001Cycle ⟨fivePoints, 80, none⟩ (.payload (some "sensor offline") [] 0)).state.scanData
      = []
    ∧ ([] : List ScanPoint) ≠ fivePoints := by
  refine ⟨by simp [part001Cycle], by simp [fivePoints]⟩

/-- **C4 (amended).** In the static and part_000 variants, a failed fetch —
transport failure or application-level error payload — leaves the held scan
set unchanged (in particular, five points delivered by a success are still
held after a subsequent transport failure); in the part_001 variant a
transport failure leaves the scan set unchanged, but an application-level
error payload overwrites it with the payload's `scan` field (empty when
absent). -/
theorem c4_failure_preserves_scan :
    (∀ (s : DisplayState) (e : String) (scan : List ScanPoint) (t : ℚ),
        (staticCycle s (.payload (some e) scan t)).state.scanData = s.scanData)
    ∧ (∀ (s : DisplayState) (m : String),
        (staticCycle s (.transportFail m)).state.scanData = s.scanData)
    ∧ (∀ (s : DisplayState) (e : String) (scan : List ScanPoint) (t : ℚ),
        (part000Cycle s (.payload (some e) scan t)).state.scanData = s.scanData)
    ∧ (∀ (s : DisplayState) (m : String),
        (part000Cycle s (.transportFail m)).state.scanData = s.scanData)
    ∧ (∀ (s : DisplayState) (m : String),
        (part001Cycle s (.transportFail m)).state.scanData = s.scanData)
    ∧ (staticCycle (staticCycle staticInit (.payload none fivePoints 800)).state
        (.transportFail "network unreachable")).state.scanData = fivePoints := by
  refine ⟨fun s e scan t => by simp [staticCycle], fun s m => by simp [staticCycle],
    fun s e scan t => by simp [part000Cycle], fun s m => by simp [part000Cycle],
    fun s m => by simp [part001Cycle], by simp [staticCycle, staticInit]⟩

/-- **C5 (counterexample).** In the part_001 variant, a payload carrying an
`error` field yields both deliveries for the same request: the snapshot
update (scan and threshold overwritten) and the error report. -/
theorem c5_part001_double_delivery :
    (part001Cycle part000Init (.payload (some "sensor error") [] 0)).snapshotDelivered = true
    ∧ (part001Cycle part000Init (.payload (some "sensor error") [] 0)).errorDelivered = true := by
  refine ⟨by simp [part001Cycle], by simp [part001Cycle]⟩

/-- **C5 (amended).** In the static and part_000 variants every completed
request yields exactly one delivery — the snapshot update or the error
report, never both and never neither; in the part_001 variant this holds for
error-free payloads and transport failures, but a payload carrying an
`error` field yields both deliveries for the same request. -/
theorem c5_exactly_one_outcome :
    (∀ (s : DisplayState) (r : FetchResult),
        (staticCycle s r).snapshotDelivered ≠ (staticCycle s r).errorDelivered)
    ∧ (∀ (s : DisplayState) (r : FetchResult),
        (part000Cycle s r).snapshotDelivered ≠ (part000Cycle s r).errorDelivered)
    ∧ (∀ (s : DisplayState) (scan : List ScanPoint) (t : ℚ),
        (part001Cycle s (.payload none scan t)).snapshotDelivered
          ≠ (part001Cycle s (.payload none scan t)).errorDelivered)
    ∧ (∀ (s : DisplayState) (m : String),
        (part001Cycle s (.transportFail m)).snapshotDelivered
          ≠ (part001Cycle s (.transportFail m)).errorDelivered) := by
  refine ⟨fun s r => ?_, fun s r => ?_, fun s scan t => by simp [part001Cycle],
    fun s m => by simp [part001Cycle]⟩
  · cases r with
    | payload err scan t => cases err <;> simp [staticCycle]
    | transportFail m => simp [staticCycle]
  · cases r with
    | payload err scan t => cases err <;> simp [part000Cycle]
    | transportFail m => simp [part000Cycle]

/-- **C6 (counterexample).** In the static variant a successful fetch does
not clear the held error message: starting from a held error, processing a
successful payload leaves the error in place instead of resetting it to the
no-error state. -/
theorem c6_static_success_keeps_error :
    (staticCycle ⟨[], 1000, some "stale error"⟩ (.payload none fivePoints 800)).state.error
      = some "stale error"
    ∧ some "stale error" ≠ (none : Option String) := by
  refine ⟨by simp [staticCycle], by simp⟩

/-- **C6 (amended).** The display shell holds at most one error message (a
single optional slot) and the most recent error always replaces any previous
one, in both fetch variants; in the part_000 variant every successful fetch
clears the held error back to the no-error state, while in the static
variant a successful fetch leaves the held error unchanged. -/
theorem c6_error_banner_policy :
    (∀ (s : DisplayState) (e : String) (scan : List ScanPoint) (t : ℚ),
        (staticCycle s (.payload (some e) scan t)).state.error = some e)
    ∧ (∀ (s : DisplayState) (e : String) (scan : List ScanPoint) (t : ℚ),
        (part000Cycle s (.payload (some e) scan t)).state.error = some e)
    ∧ (∀ (s : DisplayState) (scan : List ScanPoint) (t : ℚ),
        (part000Cycle s (.payload none scan t)).state.error = none)
    ∧ (∀ (s : DisplayState) (scan : List ScanPoint) (t : ℚ),
        (staticCycle s (.payload none scan t)).state.error = s.error) := by
  refine ⟨fun s e scan t => by simp [staticCycle], fun s e scan t => by simp [part000Cycle],
    fun s scan t => by simp [part000Cycle], fun s scan t => by simp [staticCycle]⟩

/-- Full state of the mounted static component: the display state triple,
whether the component is still mounted (the effect cleanup
`() => clearInterval(interval)` runs exactly when the component unmounts),
and how many times the canvas redraw effect (dependencies
`[scanData, threshold]`) has run. -/
structure ShellState where
  display : DisplayState
  mounted : Bool
  redraws : ℕ
deriving DecidableEq, Repr

/-- Events of the single-threaded shell: the continuation of an issued
request completes with some outcome, or the component unmounts (the
teardown: `clearInterval` plus React unmount). -/
inductive ShellEvent where
  | complete (r : FetchResult)
  | unmount
deriving DecidableEq, Repr

/-- One event step of the static display shell under the React lifecycle:
state setters invoked from a continuation that completes after unmount are
discarded by React (the unmounted component holds no live state and its
effects never re-run), so a late completion changes nothing; while mounted,
a completion runs `staticCycle` and the canvas redraw effect re-runs
exactly when its dependencies `[scanData, threshold]` changed. -/
def shellStep (s : ShellState) (e : ShellEvent) : ShellState :=
  match e with
  | .unmount => { s with mounted := false }
  | .complete r =>
      if s.mounted then
        let d := (staticCycle s.display r).state
        ⟨d, true,
          s.redraws +
            (if d.scanData = s.display.scanData ∧ d.threshold = s.display.threshold
             then 0 else 1)⟩
      else s

/-- A completion arriving at an unmounted shell is a no-op. -/
theorem shellStep_unmounted (s : ShellState) (r : FetchResult) (h : s.mounted = false) :
    shellStep s (.complete r) = s := by
  simp [shellStep, h]

/-- **C3.** Stop is total: once the teardown has run (the `unmount` event),
any number of request completions that were still in flight change nothing —
the resulting shell state equals the state right after teardown, the display
triple (scan points, threshold, error) is exactly the one held at teardown,
and the redraw count never increases, i.e. no snapshot/error delivery and no
redraw ever happens after `stop()`. -/
theorem c3_stop_is_total :
    ∀ (s : ShellState) (rs : List FetchResult),
      List.foldl shellStep (shellStep s .unmount) (rs.map ShellEvent.complete)
        = shellStep s .unmount
      ∧ (List.foldl shellStep (shellStep s .unmount) (rs.map ShellEvent.complete)).display
          = s.display
      ∧ (List.foldl shellStep (shellStep s .unmount) (rs.map ShellEvent.complete)).redraws
          = s.redraws := by
  intro s rs
  have hm : (shellStep s .unmount).mounted = false := by simp [shellStep]
  have hfix : List.foldl shellStep (shellStep s .unmount) (rs.map ShellEvent.complete)
      = shellStep s .unmount := by
    induction rs with
    | nil => rfl
    | cons r rs ih =>
        simpa [List.foldl, shellStep_unmounted _ r hm] using ih
  refine ⟨hfix, ?_, ?_⟩
  · rw [hfix]; simp [shellStep]
  · rw [hfix]; simp [shellStep]

/-- Issue time (milliseconds after mount) of the `k`-th request in the
static variant: the effect body runs `fetchData()` immediately and then
`setInterval(fetchData, intervalMs)`, so request 0 fires at offset 0 and
request `k+1` at offset `(k+1) · intervalMs`. -/
def staticRequestTime (intervalMs k : ℕ) : ℕ := k * intervalMs

/-- Issue time of the `k`-th request in the part_000/part_001/part_004
variants: the effect body runs only `setInterval(fetchData, intervalMs)`
with no immediate call, so request `k` fires at offset `(k+1) · intervalMs`. -/
def part000RequestTime (intervalMs k : ℕ) : ℕ := (k + 1) * intervalMs

/-- **C7 (counterexample).** In the part_000 variant the first request is
not issued immediately: with the default 100 ms interval it fires only at
offset 100, a full interval after start. -/
theorem c7_part000_first_request_waits :
    part000RequestTime 100 0 = 100 ∧ ¬ part000RequestTime 100 0 < 100 := by
  refine ⟨by decide, by decide⟩

/-- **C7 (amended).** When the static variant's fetcher starts, the first
request is issued immediately (at offset 0, strictly before one interval
elapses); the part_000/part_001/part_004 variants install only the interval
timer, so their first request fires exactly one full interval after start. -/
theorem c7_immediate_first_request :
    ∀ i : ℕ, 0 < i →
      staticRequestTime i 0 = 0 ∧ staticRequestTime i 0 < i
        ∧ part000RequestTime i 0 = i := by
  intro i hi
  refine ⟨by simp [staticRequestTime], by simpa [staticRequestTime] using hi,
    by simp [part000RequestTime]⟩

/-- Witness for C7 at the default 100 ms interval. -/
theorem c7_immediate_first_request_witness :
    0 < 100
    ∧ (staticRequestTime 100 0 = 0 ∧ staticRequestTime 100 0 < 100
        ∧ part000RequestTime 100 0 = 100) :=
  ⟨by decide, c7_immediate_first_request 100 (by decide)⟩

/-- One drawing command issued to the 2d context, in issue order: the
`clearRect` wipe, the opaque background fill of the static variant, a
stroked full circle, a stroked or filled arc (angles recorded as rational
multiples of π), a 2-pixel point dot, or a text label. Colors are recorded
verbatim. -/
inductive DrawOp where
  | clear
  | background
  | strokeCircle (r : ℚ) (color : String)
  | strokeArc (r : ℚ) (startMul endMul : ℚ) (color : String)
  | fillArc (r : ℚ) (startMul endMul : ℚ) (color : String)
  | pointDot (x y : ℚ) (color : String)
  | text (s : String) (x y : ℚ)
deriving DecidableEq, Repr

/-- The canvas effect of `src/static/lidar-viz.js` lines 34–90 (canvas
800×800, so `centerX = centerY = 400`, `scale = 2`): bails out when the
canvas ref is empty; otherwise fills the background, strokes the four radar
circles at radii 50·2 … 200·2, strokes the two gate arcs at radius
`threshold / 10 * scale` spanning ±π/18 around 0 and around π, draws every
scan point at `(centerX + x·scale, centerY − y·scale)` colored by
`isInGateArea`, and prints the legend labels. -/
def renderStatic (surface : Option Unit) (sd : List ScanPoint) (t : ℚ) : List DrawOp :=
  match surface with
  | none => []
  | some _ =>
      [DrawOp.background,
       DrawOp.strokeCircle 100 "#dee2e6", DrawOp.strokeCircle 200 "#dee2e6",
       DrawOp.strokeCircle 300 "#dee2e6", DrawOp.strokeCircle 400 "#dee2e6",
       DrawOp.strokeArc (t / 10 * 2) (-1/18) (1/18) "#ffc107",
       DrawOp.strokeArc (t / 10 * 2) (17/18) (19/18) "#ffc107"]
      ++ sd.map (fun p =>
           DrawOp.pointDot (400 + p.x * 2) (400 - p.y * 2)
             (if isInGateArea p t then "#dc3545" else "#0d6efd"))
      ++ [DrawOp.text "Distance (cm):" 10 20,
          DrawOp.text "500" 10 40, DrawOp.text "1000" 10 60,
          DrawOp.text "1500" 10 80, DrawOp.text "2000" 10 100]

/-- The canvas effect of `src/lidar-viz.js` lines 39–96 (canvas 600×600, so
`centerX = centerY = 300`, `scale = 2`): bails out when the canvas ref is
empty or `scanData` is empty; otherwise clears, strokes the six grid
circles at radii 50·2 … 300·2, strokes the threshold circle at
`threshold * scale`, draws every point at `(centerX + x·scale,
centerY + y·scale)` in one fixed color, and fills the two detection-zone
wedges at the threshold radius. -/
def renderWs (surface : Option Unit) (sd : List ScanPoint) (t : ℚ) : List DrawOp :=
  match surface with
  | none => []
  | some _ =>
      if sd.isEmpty then []
      else
        [DrawOp.clear,
         DrawOp.strokeCircle 100 "#2c3e50", DrawOp.strokeCircle 200 "#2c3e50",
         DrawOp.strokeCircle 300 "#2c3e50", DrawOp.strokeCircle 400 "#2c3e50",
         DrawOp.strokeCircle 500 "#2c3e50", DrawOp.strokeCircle 600 "#2c3e50",
         DrawOp.strokeCircle (t * 2) "#e74c3c"]
        ++ sd.map (fun p => DrawOp.pointDot (300 + p.x * 2) (300 + p.y * 2) "#3498db")
        ++ [DrawOp.fillArc (t * 2) (-1/18) (1/18) "rgba(46, 204, 113, 0.2)",
            DrawOp.fillArc (t * 2) (17/18) (19/18) "rgba(46, 204, 113, 0.2)"]

/-- Recognizes the background fill and the reference grid circles, the only
draw commands the spec allows in a pre-snapshot render. -/
def isBackgroundOrGrid : DrawOp → Bool
  | .background => true
  | .strokeCircle _ _ => true
  | _ => false

/-- Recognizes a scan-point dot. -/
def isPointDot : DrawOp → Bool
  | .pointDot _ _ _ => true
  | _ => false

/-- **C8 (counterexample).** The websocket variant does not reflect the
vertical axis: a point with Cartesian offset `y = 1` is rendered at screen
y `302 = centerY + y·scale`, whereas `centerY − y·scale = 298`. -/
theorem c8_ws_plus_convention :
    DrawOp.pointDot 300 302 "#3498db" ∈ renderWs (some ()) [⟨0, 0, 0, 1⟩] 100
    ∧ (300 : ℚ) - 1 * 2 ≠ 302 := by
  constructor
  · simp only [renderWs, List.isEmpty_cons, List.map_cons, List.map_nil]
    norm_num
  · norm_num

/-- **C8 (amended).** The static variant renders every scan point with the
reflected convention, screen y = `centerY − y·scale` (and screen x =
`centerX + x·scale`), uniformly for all points; the websocket variant
(`src/lidar-viz.js`, likewise `part_001`) instead renders every point at
screen y = `centerY + y·scale` — each file applies its own convention
uniformly, but the repository does not use a single one. -/
theorem c8_vertical_reflection :
    (∀ (sd : List ScanPoint) (t : ℚ) (p : ScanPoint), p ∈ sd →
        DrawOp.pointDot (400 + p.x * 2) (400 - p.y * 2)
            (if isInGateArea p t then "#dc3545" else "#0d6efd")
          ∈ renderStatic (some ()) sd t)
    ∧ (∀ (sd : List ScanPoint) (t : ℚ) (p : ScanPoint), p ∈ sd →
        DrawOp.pointDot (300 + p.x * 2) (300 + p.y * 2) "#3498db"
          ∈ renderWs (some ()) sd t) := by
  constructor
  · intro sd t p hp
    simp only [renderStatic]
    exact List.mem_append_left _ (List.mem_append_right _ (List.mem_map_of_mem _ hp))
  · intro sd t p hp
    have hne : sd.isEmpty = false := by
      cases sd with
      | nil => cases hp
      | cons a l => simp
    simp only [renderWs, hne, Bool.false_eq_true, if_false]
    exact List.mem_append_left _ (List.mem_append_right _ (List.mem_map_of_mem _ hp))

/-- Witness for C8 at a concrete point `⟨0, 0, 0, 1⟩` rendered by both
variants. -/
theorem c8_vertical_reflection_witness :
    (DrawOp.pointDot (400 + 0 * 2) (400 - 1 * 2)
        (if isInGateArea ⟨0, 0, 0, 1⟩ 1000 then "#dc3545" else "#0d6efd")
      ∈ renderStatic (some ()) [⟨0, 0, 0, 1⟩] 1000)
    ∧ DrawOp.pointDot (300 + 0 * 2) (300 + 1 * 2) "#3498db"
        ∈ renderWs (some ()) [⟨0, 0, 0, 1⟩] 100 :=
  ⟨c8_vertical_reflection.1 [⟨0, 0, 0, 1⟩] 1000 ⟨0, 0, 0, 1⟩ (by simp),
   c8_vertical_reflection.2 [⟨0, 0, 0, 1⟩] 100 ⟨0, 0, 0, 1⟩ (by simp)⟩

/-- **C9 (counterexample).** A pre-snapshot render does not draw the
background and reference grid only: with a surface present and empty scan
data, the static renderer also emits the gate arcs and the legend text (so
not every emitted command is a background/grid command), and the websocket
renderer draws nothing at all, not even the background. -/
theorem c9_empty_render_beyond_grid :
    (renderStatic (some ()) [] 1000).all isBackgroundOrGrid = false
    ∧ renderWs (some ()) [] 100 = [] := by
  refine ⟨by simp [renderStatic, isBackgroundOrGrid], by simp [renderWs]⟩

/-- **C9 (amended).** Invoking render before the drawing surface exists is a
no-op (the empty command list) in both variants rather than a failure, and
both render functions are total, so no invocation throws; with a surface
present and empty scan data the static renderer emits only fixed chrome —
background, reference circles, gate arcs, legend — and no scan-point dot,
while the websocket renderer emits nothing at all. -/
theorem c9_render_safety :
    (∀ (sd : List ScanPoint) (t : ℚ), renderStatic none sd t = [])
    ∧ (∀ (sd : List ScanPoint) (t : ℚ), renderWs none sd t = [])
    ∧ (∀ t : ℚ, (renderStatic (some ()) [] t).all (fun op => !isPointDot op) = true)
    ∧ (∀ t : ℚ, renderWs (some ()) [] t = []) := by
  refine ⟨fun sd t => rfl, fun sd t => rfl, fun t => ?_, fun t => by simp [renderWs]⟩
  simp [renderStatic, isPointDot]

/-- **C10.** The in-zone color boundary coincides with the drawn gate arc:
the code's classification `point.distance * 10 < threshold` holds exactly
when the point's distance is strictly below `threshold / 10`, and
`threshold / 10` (scaled by the display factor 2) is precisely the radius at
which the static renderer strokes the gate arcs, so a point's color changes
exactly at the displayed arc radius. -/
theorem c10_color_boundary_matches_arc :
    (∀ (p : ScanPoint) (t : ℚ),
        isInGateArea p t = true
          ↔ (p.distance < t / 10 ∧ (p.angle < 10 ∨ p.angle > 350)))
    ∧ (∀ (sd : List ScanPoint) (t : ℚ),
        DrawOp.strokeArc (t / 10 * 2) (-1/18) (1/18) "#ffc107"
          ∈ renderStatic (some ()) sd t) := by
  constructor
  · intro p t
    simp only [isInGateArea, Bool.and_eq_true, Bool.or_eq_true, decide_eq_true_eq,
      mul_ten_lt_iff]
    exact and_comm
  · intro sd t
    simp [renderStatic]
